import Mathlib

set_option maxRecDepth 4000

/-!
Verification of the LEC-Analyzer tiered extraction pipeline.

The definitions below are a shallow embedding of the pipeline logic of
`LEC-Analyzer.py`: response normalization (`is_empty_response`,
`clean_claude_response`, the inline sentinel check), the tier escalation
machine of `process_document_with_claude`, the merge of tier results, the
page tiering of `extract_text_from_pdf`, the per-document error handling,
and the batch loop of `process_documents`.  External model queries are
abstracted as oracle functions; the sequence of queries and rate-limit
sleeps is recorded as an explicit event trace.
-/

/-- ASCII whitespace, as stripped by Python str.strip and matched by the
regex class backslash-s. -/
def isSpace (c : Char) : Bool :=
  c == ' ' || c == '\t' || c == '\n' || c == '\x0d' || c == '\x0b' || c == '\x0c'

/-- Python str.lower (ASCII case folding, the only case relevant here). -/
def pyLower (s : String) : String := ⟨s.data.map Char.toLower⟩

/-- Python str.strip: drop ASCII whitespace from both ends. -/
def pyStrip (s : String) : String :=
  ⟨((s.data.dropWhile isSpace).reverse.dropWhile isSpace).reverse⟩

/-- Substring test on character lists (Python `needle in hay`). -/
def containsSub (needle : List Char) : List Char → Bool
  | [] => needle.isEmpty
  | c :: t => needle.isPrefixOf (c :: t) || containsSub needle t

/-- Python `needle in hay` on strings. -/
def hasSub (hay needle : String) : Bool := containsSub needle.data hay.data

/-- Split on the newline character, yielding the maximal newline-free
segments (regex `.` does not cross newlines). -/
def splitNl : List Char → List (List Char)
  | [] => [[]]
  | c :: t =>
    if c == '\n' then [] :: splitNl t
    else
      match splitNl t with
      | [] => [[c]]
      | h :: r => (c :: h) :: r

/-- Find the first occurrence of `needle` in `hay` and return the remainder
after it, if any. -/
def dropAfterMatch (needle : List Char) : List Char → Option (List Char)
  | [] => if needle.isPrefixOf ([] : List Char) then some [] else none
  | c :: t =>
    if needle.isPrefixOf (c :: t) then some ((c :: t).drop needle.length)
    else dropAfterMatch needle t

/-- The given literal pieces occur in this order (with arbitrary gaps). -/
def inOrder : List (List Char) → List Char → Bool
  | [], _ => true
  | n :: ns, hay =>
    match dropAfterMatch n hay with
    | some rest => inOrder ns rest
    | none => false

/-- Python `"\n\n".join`. -/
def join2 : List String → String
  | [] => ""
  | [x] => x
  | x :: y :: t => x ++ "\n\n" ++ join2 (y :: t)

/-- Expansions of the regex `there (is|are|was|were) no`. -/
def there_no_variants : List String :=
  ["there is no", "there are no", "there was no", "there were no"]

/-- Expansions of the regex `i (do not|don't|cannot|can't) find`. -/
def cannot_find_variants : List String :=
  ["i do not find", "i don\x27t find", "i cannot find", "i can\x27t find"]

/-- Expansions of the regex
`no (quotes|information|data|content|text) (related|relevant|pertaining|referring)`. -/
def no_topic_variants : List String :=
  (["quotes", "information", "data", "content", "text"].flatMap fun x =>
    ["related", "relevant", "pertaining", "referring"].map fun y =>
      "no " ++ x ++ " " ++ y)

/-- Expansions of the regex
`the document does not (contain|include|mention|discuss|address)`. -/
def doc_not_variants : List String :=
  ["contain", "include", "mention", "discuss", "address"].map fun v =>
    "the document does not " ++ v

/-- All the alternation-of-literals patterns of `is_empty_response`
(source lines 122-130), expanded into the literal strings they match. -/
def emptyPatternLiterals : List String :=
  there_no_variants ++ cannot_find_variants ++ ["no relevant information"] ++
    no_topic_variants ++ doc_not_variants ++ ["nothing in the document"]

/-- The regex `based on my review.*no.*found`: the three literals occur in
order within one newline-free segment (`.` does not match a newline). -/
def basedOnReviewMatch (t : String) : Bool :=
  (splitNl t.data).any fun line =>
    inOrder ["based on my review".data, "no".data, "found".data] line

/-- Embedding of `is_empty_response` (source lines 117-137): lower-case and
strip the response, then search for any of the "no information" regex
patterns anywhere in it. -/
def is_empty_response (response_text : String) : Bool :=
  let t := pyStrip (pyLower response_text)
  basedOnReviewMatch t || emptyPatternLiterals.any fun p => hasSub t p

/-- Embedding of `clean_claude_response` (source lines 99-114): if the
stripped response contains "N/A" anywhere but is not exactly "N/A",
replace it with the bare "N/A". -/
def clean_claude_response (response_text : String) : String :=
  let t := pyStrip response_text
  if hasSub t "N/A" then (if t ≠ "N/A" then "N/A" else t) else t

/-- The inline response normalization applied after every tier query
(source lines 542-543, 591-592, 643-644, 716-717):
`if "N/A" in result or self.is_empty_response(result): result = "N/A"`. -/
def normalizeAnswer (result : String) : String :=
  if hasSub result "N/A" || is_empty_response result then "N/A" else result

/-- The three priority tiers of an expert report, plus the single pseudo
tier used for ordinary (flat) documents. -/
inductive Tier
  | primary
  | secondary
  | tertiary
  | flat
deriving DecidableEq

/-- Observable external effects of the pipeline: the per-document session
reset query, one model query per tier/topic, and a rate-limit sleep
(`time.sleep`, in seconds). -/
inductive Event
  | reset
  | query (t : Tier)
  | sleep (n : Nat)
deriving DecidableEq

/-- The secondary-tier gate (source line 547):
`primary_result.strip() == "N/A" or len(primary_result.strip()) < 100`. -/
def needSecondary (primary_result : String) : Bool :=
  (pyStrip primary_result == "N/A") || decide ((pyStrip primary_result).length < 100)

/-- The tertiary-tier gate (source line 599):
`(primary.strip() == "N/A" and secondary.strip() == "N/A") or
(len(primary.strip()) < 100 and len(secondary.strip()) < 100 and
secondary.strip() == "N/A")`. -/
def needTertiary (primary_result secondary_result : String) : Bool :=
  ((pyStrip primary_result == "N/A") && (pyStrip secondary_result == "N/A")) ||
    (decide ((pyStrip primary_result).length < 100) &&
      decide ((pyStrip secondary_result).length < 100) &&
      (pyStrip secondary_result == "N/A"))

/-- The merge of the three tier results for one topic (source lines 649-666):
collect each stripped result that is not "N/A" (an unqueried tier
contributes the empty string, which passes this test), join with a blank
line or fall back to "N/A", and strip the combination before storing. -/
def mergeResults (primary_result secondary_result tertiary_result : String) : String :=
  let all_results :=
    (if pyStrip primary_result ≠ "N/A" then [pyStrip primary_result] else []) ++
    (if pyStrip secondary_result ≠ "N/A" then [pyStrip secondary_result] else []) ++
    (if pyStrip tertiary_result ≠ "N/A" then [pyStrip tertiary_result] else [])
  let combined_result := if all_results.isEmpty then "N/A" else join2 all_results
  pyStrip combined_result

/-- One (expert document, topic) escalation run (source lines 495-667).
The oracle gives the raw model answer for each tier, or a query failure.
Returns the trace of queries and sleeps actually performed together with
the stored topic content, or the first query error (a raised exception
skips the remaining steps, including the sleeps). -/
def processTopic (ans : Tier → Except String String) :
    List Event × Except String String :=
  match ans Tier.primary with
  | Except.error e => ([Event.query Tier.primary], Except.error e)
  | Except.ok raw_p =>
    let primary_result := normalizeAnswer raw_p
    if needSecondary primary_result then
      match ans Tier.secondary with
      | Except.error e =>
        ([Event.query Tier.primary, Event.query Tier.secondary], Except.error e)
      | Except.ok raw_s =>
        let secondary_result := normalizeAnswer raw_s
        if needTertiary primary_result secondary_result then
          match ans Tier.tertiary with
          | Except.error e =>
            ([Event.query Tier.primary, Event.query Tier.secondary, Event.sleep 1,
              Event.query Tier.tertiary], Except.error e)
          | Except.ok raw_t =>
            let tertiary_result := normalizeAnswer raw_t
            ([Event.query Tier.primary, Event.query Tier.secondary, Event.sleep 1,
              Event.query Tier.tertiary, Event.sleep 1, Event.sleep 1],
              Except.ok (mergeResults primary_result secondary_result tertiary_result))
        else
          ([Event.query Tier.primary, Event.query Tier.secondary, Event.sleep 1,
            Event.sleep 1],
            Except.ok (mergeResults primary_result secondary_result ""))
    else
      ([Event.query Tier.primary, Event.sleep 1],
        Except.ok (mergeResults primary_result "" ""))

/-- Wraps a failure-free oracle. -/
def pureAns (ans : Tier → String) : Tier → Except String String :=
  fun t => Except.ok (ans t)

/-- Event trace of one failure-free (expert document, topic) run. -/
def topicTrace (ans : Tier → String) : List Event :=
  (processTopic (pureAns ans)).1

/-- Stored topic content of one failure-free (expert document, topic) run. -/
def topicContent (ans : Tier → String) : String :=
  match (processTopic (pureAns ans)).2 with
  | Except.ok s => s
  | Except.error _ => ""

/-- The normalized primary answer (`primary_result` after line 543). -/
def primary_result (ans : Tier → String) : String :=
  normalizeAnswer (ans Tier.primary)

/-- The normalized secondary answer (`secondary_result` after line 592,
meaningful when the secondary tier was queried). -/
def secondary_result (ans : Tier → String) : String :=
  normalizeAnswer (ans Tier.secondary)

/-- The normalized tertiary answer (`tertiary_result` after line 644,
meaningful when the tertiary tier was queried). -/
def tertiary_result (ans : Tier → String) : String :=
  normalizeAnswer (ans Tier.tertiary)

/-- Whether the secondary tier is queried in a failure-free run. -/
def secondaryQueried (ans : Tier → String) : Bool :=
  needSecondary (primary_result ans)

/-- Whether the tertiary tier is queried in a failure-free run. -/
def tertiaryQueried (ans : Tier → String) : Bool :=
  secondaryQueried ans && needTertiary (primary_result ans) (secondary_result ans)

/-- The normalized answers of exactly the tiers that were queried, in tier
order. -/
def queriedContents (ans : Tier → String) : List String :=
  [primary_result ans] ++
    (if secondaryQueried ans then [secondary_result ans] else []) ++
    (if tertiaryQueried ans then [tertiary_result ans] else [])

/-- The merge of spec section 4.3 step 5, taken literally: strip the
canonical contents of the queried tiers, drop those equal to the sentinel,
and join the remainder with a blank line (sentinel if nothing remains). -/
def specMerge (contents : List String) : String :=
  let kept := (contents.map pyStrip).filter fun s => !(s == "N/A")
  if kept.isEmpty then "N/A" else join2 kept

/-- Number of model queries in a trace (the session reset is also an
external query, but never occurs inside a topic trace). -/
def queryCount (es : List Event) : Nat :=
  es.countP fun e =>
    match e with
    | Event.query _ => true
    | Event.reset => true
    | Event.sleep _ => false

/-- An event that is an external model query. -/
def isQuery : Event → Bool
  | Event.query _ => true
  | Event.reset => true
  | Event.sleep _ => false

/-- No two external queries are adjacent in the trace, i.e. some delay is
imposed between every pair of successive queries. -/
def separatedQueries : List Event → Bool
  | a :: b :: t => (!(isQuery a && isQuery b)) && separatedQueries (b :: t)
  | _ => true

/-- A query of one of the escalation tiers (secondary or tertiary). -/
def escalationQuery : Event → Bool
  | Event.query Tier.secondary => true
  | Event.query Tier.tertiary => true
  | _ => false

/-- Every secondary- or tertiary-tier query is immediately followed by a
one-second sleep. -/
def sleepFollowsEscalations : List Event → Bool
  | [] => true
  | [e] => !escalationQuery e
  | a :: b :: t =>
    (!escalationQuery a || (b == Event.sleep 1)) && sleepFollowsEscalations (b :: t)

/-- The page cap of `extract_text_from_pdf` (`max_pages=250`). -/
def MAX_PAGES : Nat := 250

/-- The page-boundary marker appended after each page's text
(`f"\n--- Page {page_num + 1} ---\n"`). -/
def pageMarker (n : Nat) : String := "\n--- Page " ++ toString n ++ " ---\n"

/-- Concatenate the given page texts, each followed by its page marker;
`start` is the 0-based absolute index of the first page. -/
def renderPages : List String → Nat → String
  | [], _ => ""
  | p :: rest, start => p ++ pageMarker (start + 1) ++ renderPages rest (start + 1)

/-- Result of `extract_text_from_pdf` (source lines 390-395 and 412-415):
either the three progressive chunks of an expert report, or the single
full text of an ordinary document. -/
inductive ExtractedText
  | expert (primary_text secondary_text tertiary_text : String)
  | standard (text : String)
deriving DecidableEq

/-- Embedding of `extract_text_from_pdf` (source lines 333-415) on the
extracted page texts: cap at `MAX_PAGES` pages, then either chunk pages
[0,10), [10,20), [20,end) for an expert report, or concatenate everything
for an ordinary document. -/
def extract_text_from_pdf (pages : List String) (is_expert_report : Bool) : ExtractedText :=
  let page_count := min pages.length MAX_PAGES
  let pgs := pages.take page_count
  if is_expert_report then
    ExtractedText.expert (renderPages (pgs.take 10) 0)
      (renderPages ((pgs.drop 10).take 10) 10)
      (renderPages (pgs.drop 20) 20)
  else
    ExtractedText.standard (renderPages pgs 0)

/-- The ordered tiers an extraction result consists of. -/
def tiersOf : ExtractedText → List String
  | ExtractedText.expert p s t => [p, s, t]
  | ExtractedText.standard t => [t]

/-- The full capped text of a document, pages concatenated in order with
their page markers. -/
def fullDocumentText (pages : List String) : String :=
  renderPages (pages.take (min pages.length MAX_PAGES)) 0

/-- One topic of an ordinary (non-expert) document (source lines 669-724):
a single query, inline normalization, and the rate-limit sleep. -/
def processTopicFlat (q : Except String String) : List Event × Except String String :=
  match q with
  | Except.error e => ([Event.query Tier.flat], Except.error e)
  | Except.ok raw => ([Event.query Tier.flat, Event.sleep 1], Except.ok (normalizeAnswer raw))

/-- The per-topic machine a document runs: tier escalation for expert
reports, a single query for ordinary documents.  The oracle is indexed by
the topic position. -/
def docMachine (parts : ExtractedText) (ans : Nat → Tier → Except String String)
    (i : Nat) : List Event × Except String String :=
  match parts with
  | ExtractedText.expert _ _ _ => processTopic (ans i)
  | ExtractedText.standard _ => processTopicFlat (ans i Tier.flat)

/-- The topic loop (source lines 491-724): run the per-topic machine on
each topic in order, accumulating (topic, content) pairs; the first query
error aborts the loop (the exception propagates to the handler at line
737), leaving later topics unqueried. -/
def runTopicsAux (machine : Nat → List Event × Except String String) :
    List String → Nat → List Event × Except String (List (String × String))
  | [], _ => ([], Except.ok [])
  | t :: rest, idx =>
    let step := machine idx
    match step.2 with
    | Except.error e => (step.1, Except.error e)
    | Except.ok content =>
      let further := runTopicsAux machine rest (idx + 1)
      (step.1 ++ further.1,
        match further.2 with
        | Except.error e => Except.error e
        | Except.ok l => Except.ok ((t, content) :: l))

/-- The per-document record handed to the report writer (source lines
730-735 on success, 740-744 on a caught exception). -/
structure DocResult where
  document_name : String
  response : String
  individual_responses : Option (List (String × String))
deriving DecidableEq

/-- The combined response string (source line 727). -/
def combineResponses (results : List (String × String)) : String :=
  join2 (results.map fun pr => "## " ++ pr.1 ++ "\n" ++ pr.2)

/-- Embedding of `process_document_with_claude` (source lines 460-744):
if text extraction failed, log and return no result at all (line 470);
otherwise reset the session, run every topic, and return either the full
result record or, if a query raised, a record whose response is the error
message.  Also returns the trace of external effects. -/
def process_document_with_claude (document_name : String)
    (extracted : Except String ExtractedText) (topics : List String)
    (ans : Nat → Tier → Except String String) : List Event × Option DocResult :=
  match extracted with
  | Except.error _ => ([], none)
  | Except.ok parts =>
    let run := runTopicsAux (docMachine parts ans) topics 0
    match run.2 with
    | Except.error e =>
      (Event.reset :: run.1, some ⟨document_name, "Error: " ++ e, none⟩)
    | Except.ok results =>
      (Event.reset :: run.1,
        some ⟨document_name, combineResponses results, some results⟩)

/-- One document of a batch: its name, the outcome of text extraction, and
the oracle answering its queries. -/
structure DocInput where
  name : String
  extracted : Except String ExtractedText
  oracle : Nat → Tier → Except String String

/-- Embedding of the batch loop of `process_documents` (source lines
908-913): process every document and keep the results that exist
(`if result: results.append(result)`). -/
def process_documents (docs : List DocInput) (topics : List String) : List DocResult :=
  docs.filterMap fun d =>
    (process_document_with_claude d.name d.extracted topics d.oracle).2

/-- The fixed, ordered topic list (source lines 77-91). -/
def prompts : List String :=
  ["Personal History and Living Situation (basic plaintiff facts)",
   "Education History (Plaintiff Only - Do not include Author or Expert Education History",
   "Pre-Event Employment History (Jobs prior to accident)",
   "Employment at the Time of the Event",
   "Post Event Employment (jobs after the accident)",
   "Base Wages (earnings around the time of the accident)",
   "Wage Growth (how much earnings are expected to grow)",
   "Fringe Benefits (Employer-Paid Benefits)",
   "Taxes",
   "Work Life Expectancy (how long plaintiff is expected to work)",
   "Social Security Benefits",
   "Discounting to Present Value (discount rate or inflation)",
   "Loss of Household Services"]

/-- Read a maximal run of decimal digits, most significant first. -/
def takeDigits : List Char → Nat → Nat × List Char
  | [], acc => (acc, [])
  | c :: t, acc =>
    if c.isDigit then takeDigits t (acc * 10 + (c.toNat - 48)) else (acc, c :: t)

/-- Count and drop a maximal run of whitespace. -/
def skipSpaces : List Char → Nat × List Char
  | [] => (0, [])
  | c :: t =>
    if isSpace c then
      let r := skipSpaces t
      (r.1 + 1, r.2)
    else (0, c :: t)

/-- Case-insensitive test for the literal "page" at the head of the list. -/
def pageAtHead : List Char → Bool
  | p :: a :: g :: e :: _ =>
    (p.toLower == 'p') && (a.toLower == 'a') && (g.toLower == 'g') && (e.toLower == 'e')
  | _ => false

/-- After the literal "page", the regex continues with one-or-more
whitespace characters and then the captured digit run. -/
def citationNumberAfter (l : List Char) : Option (Nat × List Char) :=
  let sp := skipSpaces l
  if sp.1 == 0 then none
  else
    match sp.2 with
    | c :: t => if c.isDigit then some (takeDigits (c :: t) 0) else none
    | [] => none

/-- Scan for non-overlapping matches, resuming after each match as
`re.findall` does.  The fuel starts at the list length and bounds the
recursion. -/
def pageCitationsAux : Nat → List Char → List Nat
  | 0, _ => []
  | _ + 1, [] => []
  | fuel + 1, c :: t =>
    if pageAtHead (c :: t) then
      match citationNumberAfter (t.drop 3) with
      | some r => r.1 :: pageCitationsAux fuel r.2
      | none => pageCitationsAux fuel t
    else pageCitationsAux fuel t

/-- Embedding of the citation scan of `parse_claude_response` (source line
757): `re.findall(r'Page\s+(\d+)', response, re.IGNORECASE)`, with the
captured numbers read as naturals. -/
def pageCitations (s : String) : List Nat :=
  pageCitationsAux s.data.length s.data

/-- An oracle whose every tier answer is the empty string. -/
def emptyAns : Tier → String := fun _ => ""

/-- An oracle whose every tier answer is the bare sentinel. -/
def sentinelAns : Tier → String := fun _ => "N/A"

/-- An oracle with a strong primary answer: 100 characters of content. -/
def strongAns : Tier → String := fun t =>
  match t with
  | Tier.primary =>
    "His base wage was 31.50 dollars per hour at the time of the accident, per the union wage scale. (Page 7)"
  | _ => ""

/-- The oracle of the merge counterexample: a whitespace-only primary
answer (normalized unchanged, since it neither contains "N/A" nor matches
a no-information pattern), a sentinel secondary, and tertiary content. -/
def cexMergeAns : Tier → String := fun t =>
  match t with
  | Tier.primary => " "
  | Tier.secondary => "N/A"
  | _ => "B"

/-- The oracle of the worked merge example of the spec: primary content
"A", sentinel secondary, tertiary content "B". -/
def exampleMergeAns : Tier → String := fun t =>
  match t with
  | Tier.primary => "A"
  | Tier.secondary => "N/A"
  | _ => "B"

/-- A raw answer consisting of a genuine verbatim quote with a page
citation, whose quoted text happens to contain the phrase "there is no". -/
def quotedAnswer : String :=
  "\x22The union contract states there is no cap on overtime wages.\x22 (Page 3)"

/-- A document whose text extraction failed. -/
def failedExtractionDoc : DocInput :=
  ⟨"report.pdf", Except.error "Error extracting text: cannot open document",
    fun _ _ => Except.ok "irrelevant"⟩

/-- An oracle that answers the first topic and fails on the second. -/
def failingOracle : Nat → Tier → Except String String := fun i _ =>
  if i == 0 then Except.ok "He worked as a welder from 2010 to 2019. (Page 2)"
  else Except.error "Connection error"

/-- A document whose second topic query fails. -/
def failingDoc : DocInput :=
  ⟨"doc1.pdf", Except.ok (ExtractedText.standard "body one"), failingOracle⟩

/-- A document whose every query succeeds. -/
def healthyDoc : DocInput :=
  ⟨"doc2.pdf", Except.ok (ExtractedText.standard "body two"),
    fun _ _ => Except.ok "She earned 50000 dollars in 2018. (Page 4)"⟩

/-- The two-topic batch of the fault-containment scenario. -/
def twoTopics : List String := ["Pre-Event Employment History", "Base Wages"]

theorem containsSub_iff (n l : List Char) :
    containsSub n l = true ↔ ∃ a b, l = a ++ n ++ b := by
  induction l with
  | nil =>
    simp only [containsSub, List.isEmpty_iff]
    constructor
    · rintro rfl
      exact ⟨[], [], rfl⟩
    · rintro ⟨a, b, h⟩
      have h2 := List.append_eq_nil.mp h.symm
      exact (List.append_eq_nil.mp h2.1).2
  | cons c t ih =>
    simp only [containsSub, Bool.or_eq_true, List.isPrefixOf_iff_prefix, ih]
    constructor
    · rintro (⟨s, hs⟩ | ⟨a, b, rfl⟩)
      · exact ⟨[], s, by simpa using hs.symm⟩
      · exact ⟨c :: a, b, rfl⟩
    · rintro ⟨a, b, h⟩
      cases a with
      | nil => exact Or.inl ⟨b, by simpa using h.symm⟩
      | cons a0 a2 =>
        simp only [List.cons_append, List.cons.injEq] at h
        exact Or.inr ⟨a2, b, h.2⟩

theorem containsSub_dropWhile (p : Char → Bool) (c0 : Char) (ns l : List Char)
    (hc : p c0 = false) (h : containsSub (c0 :: ns) l = true) :
    containsSub (c0 :: ns) (l.dropWhile p) = true := by
  induction l with
  | nil => simp [containsSub] at h
  | cons c t ih =>
    rw [List.dropWhile_cons]
    by_cases hpc : p c = true
    · rw [if_pos hpc]
      apply ih
      simp only [containsSub, Bool.or_eq_true] at h
      rcases h with hpre | hsub
      · exfalso
        obtain ⟨s, hs⟩ := List.isPrefixOf_iff_prefix.mp hpre
        rw [List.cons_append] at hs
        injection hs with h1 _
        rw [h1] at hc
        exact absurd hpc (by simp [hc])
      · exact hsub
    · rw [if_neg hpc]
      exact h

theorem containsSub_reverse (n l : List Char) (h : containsSub n l = true) :
    containsSub n.reverse l.reverse = true := by
  rw [containsSub_iff] at h ⊢
  obtain ⟨a, b, rfl⟩ := h
  exact ⟨b.reverse, a.reverse, by simp⟩

theorem hasSub_pyStrip_sentinel (s : String) (h : hasSub s "N/A" = true) :
    hasSub (pyStrip s) "N/A" = true := by
  have h0 : containsSub ('N' :: ['/', 'A']) s.data = true := h
  have h1 := containsSub_dropWhile isSpace 'N' ['/', 'A'] s.data (by decide) h0
  have h2 := containsSub_reverse ('N' :: ['/', 'A']) _ h1
  have h2a : containsSub ('A' :: ['/', 'N']) (s.data.dropWhile isSpace).reverse = true := h2
  have h3 := containsSub_dropWhile isSpace 'A' ['/', 'N'] _ (by decide) h2a
  have h4 := containsSub_reverse ('A' :: ['/', 'N']) _ h3
  exact h4

theorem pyStrip_data_infix (s : String) :
    ∃ a b, s.data = a ++ (pyStrip s).data ++ b := by
  obtain ⟨a, ha⟩ := List.dropWhile_suffix (l := s.data) isSpace
  obtain ⟨b, hb⟩ := List.dropWhile_suffix (l := (s.data.dropWhile isSpace).reverse) isSpace
  refine ⟨a, b.reverse, ?_⟩
  have hd1 := congrArg List.reverse hb
  simp only [List.reverse_append, List.reverse_reverse] at hd1
  show s.data =
    a ++ ((s.data.dropWhile isSpace).reverse.dropWhile isSpace).reverse ++ b.reverse
  calc s.data = a ++ s.data.dropWhile isSpace := ha.symm
    _ = a ++ (((s.data.dropWhile isSpace).reverse.dropWhile isSpace).reverse ++ b.reverse) := by
        rw [hd1]
    _ = a ++ ((s.data.dropWhile isSpace).reverse.dropWhile isSpace).reverse ++ b.reverse := by
        rw [List.append_assoc]

theorem pyStrip_eq_sentinel_hasSub (s : String) (h : pyStrip s = "N/A") :
    hasSub s "N/A" = true := by
  obtain ⟨a, b, hab⟩ := pyStrip_data_infix s
  rw [h] at hab
  rw [hasSub, containsSub_iff]
  exact ⟨a, b, hab⟩

theorem normalizeAnswer_strip_sentinel (raw : String) :
    pyStrip (normalizeAnswer raw) = "N/A" ↔ normalizeAnswer raw = "N/A" := by
  constructor
  · intro h
    by_cases hcond : (hasSub raw "N/A" || is_empty_response raw) = true
    · simp [normalizeAnswer, hcond]
    · rw [normalizeAnswer, if_neg hcond] at h
      have := pyStrip_eq_sentinel_hasSub raw h
      simp [this] at hcond
  · intro h
    rw [h]
    decide

theorem pyStrip_append_ws (x w : String) (hw : ∀ c ∈ w.data, isSpace c = true) :
    pyStrip (x ++ w) = pyStrip x := by
  apply String.ext
  show (((x ++ w).data.dropWhile isSpace).reverse.dropWhile isSpace).reverse =
    ((x.data.dropWhile isSpace).reverse.dropWhile isSpace).reverse
  rw [String.data_append, List.dropWhile_append]
  by_cases h : (x.data.dropWhile isSpace).isEmpty = true
  · rw [if_pos h, List.dropWhile_eq_nil_iff.mpr hw, List.isEmpty_iff.mp h]
  · rw [if_neg h, List.reverse_append, List.dropWhile_append,
      List.dropWhile_eq_nil_iff.mpr (fun c hc => hw c (List.mem_reverse.mp hc))]
    simp

theorem join2_cons_cons (x y : String) (t : List String) :
    join2 (x :: y :: t) = x ++ "\n\n" ++ join2 (y :: t) := rfl

theorem join2_single (x : String) : join2 [x] = x := rfl

theorem join2_append_empty (xs : List String) (h : xs ≠ []) :
    join2 (xs ++ [""]) = join2 xs ++ "\n\n" := by
  induction xs with
  | nil => exact absurd rfl h
  | cons x t ih =>
    cases t with
    | nil =>
      show join2 [x, ""] = x ++ "\n\n"
      rw [join2_cons_cons]
      show x ++ "\n\n" ++ "" = x ++ "\n\n"
      rw [String.append_empty]
    | cons y t2 =>
      calc join2 ((x :: y :: t2) ++ [""])
          = x ++ "\n\n" ++ join2 ((y :: t2) ++ [""]) := rfl
        _ = x ++ "\n\n" ++ (join2 (y :: t2) ++ "\n\n") := by rw [ih (by simp)]
        _ = join2 (x :: y :: t2) ++ "\n\n" := by
            rw [join2_cons_cons]
            simp only [String.append_assoc]

theorem processTopic_strong (ans : Tier → String)
    (h : needSecondary (primary_result ans) = false) :
    topicTrace ans = [Event.query Tier.primary, Event.sleep 1] ∧
    topicContent ans = mergeResults (primary_result ans) "" "" := by
  have h' : needSecondary (normalizeAnswer (ans Tier.primary)) = false := h
  constructor <;>
    simp [topicTrace, topicContent, processTopic, pureAns, h', primary_result]

theorem processTopic_two (ans : Tier → String)
    (h1 : needSecondary (primary_result ans) = true)
    (h2 : needTertiary (primary_result ans) (secondary_result ans) = false) :
    topicTrace ans = [Event.query Tier.primary, Event.query Tier.secondary,
      Event.sleep 1, Event.sleep 1] ∧
    topicContent ans = mergeResults (primary_result ans) (secondary_result ans) "" := by
  have h1' : needSecondary (normalizeAnswer (ans Tier.primary)) = true := h1
  have h2' : needTertiary (normalizeAnswer (ans Tier.primary))
      (normalizeAnswer (ans Tier.secondary)) = false := h2
  constructor <;>
    simp [topicTrace, topicContent, processTopic, pureAns, h1', h2',
      primary_result, secondary_result]

theorem processTopic_three (ans : Tier → String)
    (h1 : needSecondary (primary_result ans) = true)
    (h2 : needTertiary (primary_result ans) (secondary_result ans) = true) :
    topicTrace ans = [Event.query Tier.primary, Event.query Tier.secondary,
      Event.sleep 1, Event.query Tier.tertiary, Event.sleep 1, Event.sleep 1] ∧
    topicContent ans =
      mergeResults (primary_result ans) (secondary_result ans) (tertiary_result ans) := by
  have h1' : needSecondary (normalizeAnswer (ans Tier.primary)) = true := h1
  have h2' : needTertiary (normalizeAnswer (ans Tier.primary))
      (normalizeAnswer (ans Tier.secondary)) = true := h2
  constructor <;>
    simp [topicTrace, topicContent, processTopic, pureAns, h1', h2',
      primary_result, secondary_result, tertiary_result]

theorem mem_query_secondary_iff (ans : Tier → String) :
    Event.query Tier.secondary ∈ topicTrace ans ↔ secondaryQueried ans = true := by
  by_cases h1 : needSecondary (primary_result ans) = true
  · by_cases h2 : needTertiary (primary_result ans) (secondary_result ans) = true
    · rw [(processTopic_three ans h1 h2).1]
      simp [secondaryQueried, h1]
    · rw [(processTopic_two ans h1 (Bool.not_eq_true _ ▸ h2 : _)).1]
      simp [secondaryQueried, h1]
  · rw [(processTopic_strong ans (Bool.not_eq_true _ ▸ h1 : _)).1]
    simp [secondaryQueried, h1]

theorem mem_query_tertiary_iff (ans : Tier → String) :
    Event.query Tier.tertiary ∈ topicTrace ans ↔ tertiaryQueried ans = true := by
  by_cases h1 : needSecondary (primary_result ans) = true
  · by_cases h2 : needTertiary (primary_result ans) (secondary_result ans) = true
    · rw [(processTopic_three ans h1 h2).1]
      simp [tertiaryQueried, secondaryQueried, h1, h2]
    · rw [(processTopic_two ans h1 (Bool.not_eq_true _ ▸ h2 : _)).1]
      simp [tertiaryQueried, secondaryQueried, h1, h2]
  · rw [(processTopic_strong ans (Bool.not_eq_true _ ▸ h1 : _)).1]
    have h2 : needTertiary (primary_result ans) "" = false := by
      simp [needTertiary]
      constructor
      · intro hp
        exact absurd (by simp [needSecondary, hp]) h1
      · intro _ _
        decide
    simp [tertiaryQueried, secondaryQueried, h1]

/-- C1: in every (deep document, topic) extraction the secondary tier is
queried if and only if the normalized primary answer is the sentinel or
its stripped content is shorter than 100 characters; when the primary
answer is non-sentinel with stripped length at least 100, exactly one
query is issued for the topic and the secondary and tertiary tiers are
never queried. -/
theorem claim1_secondary_gate (ans : Tier → String) :
    (Event.query Tier.secondary ∈ topicTrace ans ↔
      (primary_result ans = "N/A" ∨ (pyStrip (primary_result ans)).length < 100)) ∧
    (primary_result ans ≠ "N/A" → 100 ≤ (pyStrip (primary_result ans)).length →
      queryCount (topicTrace ans) = 1 ∧
      Event.query Tier.secondary ∉ topicTrace ans ∧
      Event.query Tier.tertiary ∉ topicTrace ans) := by
  have hsent : pyStrip (primary_result ans) = "N/A" ↔ primary_result ans = "N/A" :=
    normalizeAnswer_strip_sentinel (ans Tier.primary)
  constructor
  · rw [mem_query_secondary_iff]
    simp only [secondaryQueried, needSecondary, Bool.or_eq_true, beq_iff_eq,
      decide_eq_true_eq]
    rw [hsent]
  · intro hne hlen
    have hfalse : needSecondary (primary_result ans) = false := by
      rw [needSecondary]
      simp only [Bool.or_eq_false_iff, beq_eq_false_iff_ne, ne_eq,
        decide_eq_false_iff_not, not_lt]
      exact ⟨fun hx => hne (hsent.mp hx), hlen⟩
    rw [(processTopic_strong ans hfalse).1]
    exact ⟨by decide, by decide, by decide⟩

theorem claim1_secondary_gate_witness :
    queryCount (topicTrace strongAns) = 1 ∧
    Event.query Tier.secondary ∉ topicTrace strongAns ∧
    Event.query Tier.tertiary ∉ topicTrace strongAns :=
  (claim1_secondary_gate strongAns).2 (by decide) (by decide)

/-- C2: whenever the secondary tier was queried, the tertiary tier is
queried if and only if the normalized primary and secondary answers are
both the sentinel, or both stripped contents are shorter than 100
characters and the normalized secondary answer is the sentinel; in
particular, with primary and secondary both sentinel all three tiers are
queried. -/
theorem claim2_tertiary_gate (ans : Tier → String)
    (h : Event.query Tier.secondary ∈ topicTrace ans) :
    (Event.query Tier.tertiary ∈ topicTrace ans ↔
      ((primary_result ans = "N/A" ∧ secondary_result ans = "N/A") ∨
        ((pyStrip (primary_result ans)).length < 100 ∧
          (pyStrip (secondary_result ans)).length < 100 ∧
          secondary_result ans = "N/A"))) ∧
    (primary_result ans = "N/A" → secondary_result ans = "N/A" →
      queryCount (topicTrace ans) = 3 ∧
      Event.query Tier.tertiary ∈ topicTrace ans) := by
  have hsentP : pyStrip (primary_result ans) = "N/A" ↔ primary_result ans = "N/A" :=
    normalizeAnswer_strip_sentinel (ans Tier.primary)
  have hsentS : pyStrip (secondary_result ans) = "N/A" ↔ secondary_result ans = "N/A" :=
    normalizeAnswer_strip_sentinel (ans Tier.secondary)
  rw [mem_query_secondary_iff] at h
  constructor
  · rw [mem_query_tertiary_iff]
    simp only [tertiaryQueried, h, Bool.true_and, needTertiary, Bool.or_eq_true,
      Bool.and_eq_true, beq_iff_eq, decide_eq_true_eq]
    rw [hsentP, hsentS]
    tauto
  · intro hp hs
    have h2 : needTertiary (primary_result ans) (secondary_result ans) = true := by
      simp [needTertiary, hsentP.mpr hp, hsentS.mpr hs]
    have h1 : needSecondary (primary_result ans) = true := by
      simp [needSecondary, hsentP.mpr hp]
    rw [(processTopic_three ans h1 h2).1]
    exact ⟨by decide, by decide⟩

theorem claim2_tertiary_gate_witness :
    queryCount (topicTrace sentinelAns) = 3 ∧
    Event.query Tier.tertiary ∈ topicTrace sentinelAns :=
  (claim2_tertiary_gate sentinelAns (by decide)).2 (by decide) (by decide)

theorem mergeResults_three (P S T : String) :
    mergeResults P S T = pyStrip (specMerge [P, S, T]) := by
  by_cases hP : pyStrip P = "N/A" <;> by_cases hS : pyStrip S = "N/A" <;>
    by_cases hT : pyStrip T = "N/A" <;>
      simp [mergeResults, specMerge, hP, hS, hT]

theorem mergeResults_two (P S : String)
    (hne : ¬(pyStrip P = "N/A" ∧ pyStrip S = "N/A")) :
    mergeResults P S "" = pyStrip (specMerge [P, S]) := by
  have hps : pyStrip "" = "" := by decide
  have hne2 : ("" : String) ≠ "N/A" := by decide
  have hws : ∀ c ∈ ("\n\n" : String).data, isSpace c = true := by decide
  by_cases hP : pyStrip P = "N/A" <;> by_cases hS : pyStrip S = "N/A"
  · exact absurd ⟨hP, hS⟩ hne
  · have e1 : join2 [pyStrip S, ""] = pyStrip S ++ "\n\n" := by
      have a1 : ([pyStrip S, ""] : List String) = [pyStrip S] ++ [""] := rfl
      rw [a1, join2_append_empty _ (by simp), join2_single]
    simp [mergeResults, specMerge, hP, hS, hps, hne2, e1, join2_single,
      pyStrip_append_ws _ _ hws]
  · have e1 : join2 [pyStrip P, ""] = pyStrip P ++ "\n\n" := by
      have a1 : ([pyStrip P, ""] : List String) = [pyStrip P] ++ [""] := rfl
      rw [a1, join2_append_empty _ (by simp), join2_single]
    simp [mergeResults, specMerge, hP, hS, hps, hne2, e1, join2_single,
      pyStrip_append_ws _ _ hws]
  · have e1 : join2 [pyStrip P, pyStrip S, ""] = join2 [pyStrip P, pyStrip S] ++ "\n\n" := by
      have a1 : ([pyStrip P, pyStrip S, ""] : List String) =
          [pyStrip P, pyStrip S] ++ [""] := rfl
      rw [a1, join2_append_empty _ (by simp)]
    simp [mergeResults, specMerge, hP, hS, hps, hne2, e1, pyStrip_append_ws _ _ hws]

theorem mergeResults_one (P : String) (hP : pyStrip P ≠ "N/A") :
    mergeResults P "" "" = pyStrip (specMerge [P]) := by
  have hps : pyStrip "" = "" := by decide
  have hne2 : ("" : String) ≠ "N/A" := by decide
  have hws : ∀ c ∈ ("\n\n" : String).data, isSpace c = true := by decide
  have e1 : join2 [pyStrip P, "", ""] = pyStrip P ++ "\n\n" ++ "\n\n" := by
    have a1 : ([pyStrip P, "", ""] : List String) = [pyStrip P, ""] ++ [""] := rfl
    have a2 : ([pyStrip P, ""] : List String) = [pyStrip P] ++ [""] := rfl
    rw [a1, join2_append_empty _ (by simp), a2, join2_append_empty _ (by simp),
      join2_single]
  simp [mergeResults, specMerge, hP, hps, hne2, e1, join2_single,
    pyStrip_append_ws _ _ hws]

/-- C3 counterexample: with a whitespace-only primary answer (normalized
unchanged), a sentinel secondary and tertiary content "B", all three tiers
are queried, the claimed blank-line join of the queried non-sentinel
contents is "\n\nB", but the code stores "B" (the final strip of line 666
removes the leading blank line), so the merged content is not the plain
join the claim describes. -/
theorem claim3_merge_counterexample :
    Event.query Tier.secondary ∈ topicTrace cexMergeAns ∧
    Event.query Tier.tertiary ∈ topicTrace cexMergeAns ∧
    queriedContents cexMergeAns = [" ", "N/A", "B"] ∧
    specMerge (queriedContents cexMergeAns) = "\n\nB" ∧
    topicContent cexMergeAns = "B" ∧
    topicContent cexMergeAns ≠ specMerge (queriedContents cexMergeAns) := by
  refine ⟨by decide, by decide, by decide, by decide, by decide, by decide⟩

/-- C3 amended: the merged topic content equals the stripped canonical
contents of the queried tiers, in tier order, excluding any equal to the
sentinel, joined with a blank-line separator and then stripped of
surrounding whitespace (sentinel when every queried content is the
sentinel); in particular primary "A" with sentinel secondary and tertiary
"B" merge to "A\n\nB". -/
theorem claim3_merge_amended :
    (∀ ans : Tier → String,
      topicContent ans = pyStrip (specMerge (queriedContents ans))) ∧
    topicContent exampleMergeAns = "A\n\nB" := by
  refine ⟨fun ans => ?_, by decide⟩
  by_cases h1 : needSecondary (primary_result ans) = true
  · by_cases h2 : needTertiary (primary_result ans) (secondary_result ans) = true
    · rw [(processTopic_three ans h1 h2).2]
      have hq : queriedContents ans =
          [primary_result ans, secondary_result ans, tertiary_result ans] := by
        simp [queriedContents, secondaryQueried, tertiaryQueried, h1, h2]
      rw [hq, mergeResults_three]
    · have h2f : needTertiary (primary_result ans) (secondary_result ans) = false :=
        Bool.not_eq_true _ ▸ h2
      rw [(processTopic_two ans h1 h2f).2]
      have hq : queriedContents ans = [primary_result ans, secondary_result ans] := by
        simp [queriedContents, secondaryQueried, tertiaryQueried, h1, h2f]
      have hne : ¬(pyStrip (primary_result ans) = "N/A" ∧
          pyStrip (secondary_result ans) = "N/A") := by
        rintro ⟨hp, hs⟩
        rw [needTertiary, hp, hs] at h2f
        simp at h2f
      rw [hq, mergeResults_two _ _ hne]
  · have h1f : needSecondary (primary_result ans) = false := Bool.not_eq_true _ ▸ h1
    rw [(processTopic_strong ans h1f).2]
    have hq : queriedContents ans = [primary_result ans] := by
      simp [queriedContents, secondaryQueried, tertiaryQueried, h1f]
    have hP : pyStrip (primary_result ans) ≠ "N/A" := by
      intro hx
      rw [needSecondary, hx] at h1f
      simp at h1f
    rw [hq, mergeResults_one _ hP]

/-- C4 counterexample: the bare answer "No information found.", an instance
of the "no information/quotes/data found" phrasing the claim lists,
matches none of the code's patterns (the "no information" pattern demands
a following related/relevant/pertaining/referring qualifier), so it is not
classified as empty and is not canonicalized to the sentinel. -/
theorem claim4_patterns_counterexample :
    is_empty_response "No information found." = false ∧
    normalizeAnswer "No information found." = "No information found." ∧
    ("No information found." : String) ≠ "N/A" := by
  refine ⟨by decide, by decide, by decide⟩

/-- C4 amended: answers whose lower-cased, stripped text contains
"there is/are no", "i cannot/can't find", "the document does not
contain/mention" or "nothing in the document" are classified as empty and
canonicalized to the sentinel; the bare "no information/quotes/data
found" phrasing, however, is only matched when followed by a
related/relevant/pertaining/referring qualifier (or as "no relevant
information"), not on its own. -/
theorem claim4_patterns_amended (s : String)
    (h : hasSub (pyStrip (pyLower s)) "there is no" = true ∨
      hasSub (pyStrip (pyLower s)) "there are no" = true ∨
      hasSub (pyStrip (pyLower s)) "i cannot find" = true ∨
      hasSub (pyStrip (pyLower s)) "i can\x27t find" = true ∨
      hasSub (pyStrip (pyLower s)) "the document does not contain" = true ∨
      hasSub (pyStrip (pyLower s)) "the document does not mention" = true ∨
      hasSub (pyStrip (pyLower s)) "nothing in the document" = true) :
    is_empty_response s = true ∧ normalizeAnswer s = "N/A" := by
  have hemp : is_empty_response s = true := by
    rw [is_empty_response]
    simp only [Bool.or_eq_true, List.any_eq_true]
    right
    rcases h with h | h | h | h | h | h | h
    exacts [⟨"there is no", by decide, h⟩, ⟨"there are no", by decide, h⟩,
      ⟨"i cannot find", by decide, h⟩, ⟨"i can\x27t find", by decide, h⟩,
      ⟨"the document does not contain", by decide, h⟩,
      ⟨"the document does not mention", by decide, h⟩,
      ⟨"nothing in the document", by decide, h⟩]
  exact ⟨hemp, by simp [normalizeAnswer, hemp]⟩

theorem claim4_patterns_amended_witness :
    is_empty_response "There is no mention of wages in this document." = true ∧
    normalizeAnswer "There is no mention of wages in this document." = "N/A" :=
  claim4_patterns_amended _ (Or.inl (by decide))

/-- C5: every raw answer containing the sentinel "N/A" anywhere is
canonicalized by `clean_claude_response` and by the inline normalization
to the bare sentinel; the bare sentinel itself is returned unchanged, so
normalization is idempotent on the canonical form. -/
theorem claim5_sentinel_cleanup :
    (∀ s : String, hasSub s "N/A" = true →
      clean_claude_response s = "N/A" ∧ normalizeAnswer s = "N/A") ∧
    clean_claude_response "N/A" = "N/A" ∧ normalizeAnswer "N/A" = "N/A" := by
  refine ⟨fun s h => ?_, by decide, by decide⟩
  constructor
  · have hs := hasSub_pyStrip_sentinel s h
    by_cases he : pyStrip s = "N/A"
    · simp [clean_claude_response, hs, he]
    · simp [clean_claude_response, hs, he]
  · simp [normalizeAnswer, h]

theorem claim5_sentinel_cleanup_witness :
    clean_claude_response "Answer: N/A (no relevant quotes)" = "N/A" ∧
    normalizeAnswer "Answer: N/A (no relevant quotes)" = "N/A" :=
  claim5_sentinel_cleanup.1 _ (by decide)

/-- C10: the emptiness classifier searches its patterns by substring
anywhere in the lower-cased answer, so a genuine verbatim quote whose text
contains "there is no", complete with a page citation, is classified as
empty and canonicalized to the sentinel, erasing its content and its
citation. -/
theorem claim10_substring_false_positive :
    is_empty_response quotedAnswer = true ∧
    normalizeAnswer quotedAnswer = "N/A" ∧
    quotedAnswer ≠ "N/A" ∧
    pageCitations quotedAnswer = [3] ∧
    pageCitations (normalizeAnswer quotedAnswer) = [] := by
  refine ⟨by decide, by decide, by decide, by decide, by decide⟩

/-- C6: for every document flagged non-deep, the tiering step produces
exactly one tier whose text is the document's full (capped) extracted
text unchanged. -/
theorem claim6_flat_single_tier (pages : List String) :
    tiersOf (extract_text_from_pdf pages false) = [fullDocumentText pages] ∧
    (tiersOf (extract_text_from_pdf pages false)).length = 1 := by
  constructor <;> simp [extract_text_from_pdf, tiersOf, fullDocumentText]

/-- C7 counterexample: with empty answers the per-topic trace queries the
primary and secondary tiers back to back, so no delay separates these two
successive external queries, refuting the claim that a fixed delay is
imposed between every pair of successive queries. -/
theorem claim7_delay_counterexample :
    topicTrace emptyAns =
      [Event.query Tier.primary, Event.query Tier.secondary,
        Event.sleep 1, Event.sleep 1] ∧
    separatedQueries (topicTrace emptyAns) = false := by
  refine ⟨by decide, by decide⟩

/-- C7 amended: a one-second delay follows every secondary-tier and
tertiary-tier query, and every topic's trace ends with a one-second delay
(separating successive topics and documents), but no delay separates a
topic's primary query from the immediately following secondary query. -/
theorem claim7_delay_amended (ans : Tier → String) :
    sleepFollowsEscalations (topicTrace ans) = true ∧
    (topicTrace ans).getLast? = some (Event.sleep 1) := by
  by_cases h1 : needSecondary (primary_result ans) = true
  · by_cases h2 : needTertiary (primary_result ans) (secondary_result ans) = true
    · rw [(processTopic_three ans h1 h2).1]
      exact ⟨by decide, by decide⟩
    · rw [(processTopic_two ans h1 (Bool.not_eq_true _ ▸ h2 : _)).1]
      exact ⟨by decide, by decide⟩
  · rw [(processTopic_strong ans (Bool.not_eq_true _ ▸ h1 : _)).1]
    exact ⟨by decide, by decide⟩

/-- C8 counterexample: for a document whose text extraction failed the
pipeline performs no queries but also produces no result record at all
(`return None`, dropped by `if result:`), so nothing about the document,
error message included, appears in the batch results handed to the
report writer. -/
theorem claim8_extraction_error_counterexample :
    process_document_with_claude "report.pdf" failedExtractionDoc.extracted prompts
      failedExtractionDoc.oracle = ([], none) ∧
    process_documents [failedExtractionDoc] prompts = [] := by
  refine ⟨by decide, by decide⟩

/-- C8 amended: when text extraction fails the pipeline issues no queries
for that document and returns no result record; the document is omitted
from the batch results (the failure is only logged), and the remaining
documents are processed as if it were not in the batch. -/
theorem claim8_extraction_error_amended (name msg : String)
    (topics : List String) (oracle : Nat → Tier → Except String String)
    (ds : List DocInput) :
    process_document_with_claude name (Except.error msg) topics oracle = ([], none) ∧
    process_documents (⟨name, Except.error msg, oracle⟩ :: ds) topics =
      process_documents ds topics := by
  constructor
  · rfl
  · simp [process_documents, process_document_with_claude]

/-- C9: if a document's query fails at its second topic, that document's
result records the error message, its remaining topics are never queried
(the trace is exactly that of the first two topics, whatever topics
follow), and every later document of the batch is still processed, its
results unaffected. -/
theorem claim9_fault_isolation (name : String) (parts : ExtractedText)
    (oracle : Nat → Tier → Except String String) (t1 t2 : String)
    (rest : List String) (ev0 ev1 : List Event) (c0 e : String)
    (h0 : docMachine parts oracle 0 = (ev0, Except.ok c0))
    (h1 : docMachine parts oracle 1 = (ev1, Except.error e)) :
    process_document_with_claude name (Except.ok parts) (t1 :: t2 :: rest) oracle =
      (Event.reset :: (ev0 ++ ev1), some ⟨name, "Error: " ++ e, none⟩) ∧
    (∀ ds : List DocInput,
      process_documents (⟨name, Except.ok parts, oracle⟩ :: ds) (t1 :: t2 :: rest) =
        ⟨name, "Error: " ++ e, none⟩ :: process_documents ds (t1 :: t2 :: rest)) := by
  have hdoc : process_document_with_claude name (Except.ok parts)
      (t1 :: t2 :: rest) oracle =
      (Event.reset :: (ev0 ++ ev1), some ⟨name, "Error: " ++ e, none⟩) := by
    simp [process_document_with_claude, runTopicsAux, h0, h1]
  refine ⟨hdoc, fun ds => ?_⟩
  simp [process_documents, hdoc]

theorem claim9_fault_isolation_witness :
    process_documents [failingDoc, healthyDoc] twoTopics =
      ⟨"doc1.pdf", "Error: Connection error", none⟩ ::
        process_documents [healthyDoc] twoTopics :=
  (claim9_fault_isolation "doc1.pdf" (ExtractedText.standard "body one") failingOracle
    "Pre-Event Employment History" "Base Wages" [] [Event.query Tier.flat, Event.sleep 1]
    [Event.query Tier.flat] "He worked as a welder from 2010 to 2019. (Page 2)"
    "Connection error" rfl rfl).2 [healthyDoc]

theorem renderPages_append (a b : List String) (start : Nat) :
    renderPages (a ++ b) start =
      renderPages a start ++ renderPages b (start + a.length) := by
  induction a generalizing start with
  | nil => simp [renderPages]
  | cons p t ih =>
    have harith : start + (p :: t).length = start + 1 + t.length := by
      simp [List.length_cons]
      omega
    calc renderPages ((p :: t) ++ b) start
        = p ++ pageMarker (start + 1) ++ renderPages (t ++ b) (start + 1) := rfl
      _ = p ++ pageMarker (start + 1) ++
            (renderPages t (start + 1) ++ renderPages b (start + 1 + t.length)) := by
          rw [ih]
      _ = renderPages (p :: t) start ++ renderPages b (start + (p :: t).length) := by
          rw [harith]
          show _ = p ++ pageMarker (start + 1) ++ renderPages t (start + 1) ++ _
          simp [String.append_assoc]

theorem expert_tiers_concat (l : List String) :
    renderPages (l.take 10) 0 ++ renderPages ((l.drop 10).take 10) 10 ++
      renderPages (l.drop 20) 20 = renderPages l 0 := by
  by_cases h10 : 10 ≤ l.length
  · have hlen10 : (l.take 10).length = 10 := by
      simp [List.length_take]
      omega
    by_cases h20 : 20 ≤ l.length
    · have hlen20 : ((l.drop 10).take 10).length = 10 := by
        simp [List.length_take, List.length_drop]
        omega
      have hdd : (l.drop 10).drop 10 = l.drop 20 := by
        rw [List.drop_drop]
      conv_rhs => rw [← List.take_append_drop 10 l]
      rw [renderPages_append, hlen10]
      conv_rhs => rw [← List.take_append_drop 10 (l.drop 10)]
      rw [renderPages_append, hlen20, hdd]
      norm_num [String.append_assoc]
    · have hd20 : l.drop 20 = [] := List.drop_eq_nil_of_le (by omega)
      have ht : (l.drop 10).take 10 = l.drop 10 := by
        apply List.take_of_length_le
        simp [List.length_drop]
        omega
      conv_rhs => rw [← List.take_append_drop 10 l]
      rw [renderPages_append, hlen10, hd20, ht]
      show _ ++ _ ++ renderPages [] 20 = _
      simp [renderPages, String.append_empty]
  · have hd10 : l.drop 10 = [] := List.drop_eq_nil_of_le (by omega)
    have hd20 : l.drop 20 = [] := List.drop_eq_nil_of_le (by omega)
    have ht : l.take 10 = l := List.take_of_length_le (by omega)
    simp [hd10, hd20, ht, renderPages, String.append_empty]

theorem tiering_preserves_text (pages : List String) (p s t : String)
    (h : extract_text_from_pdf pages true = ExtractedText.expert p s t) :
    p ++ s ++ t = fullDocumentText pages := by
  simp only [extract_text_from_pdf, ExtractedText.expert.injEq, if_true] at h
  obtain ⟨h1, h2, h3⟩ := h
  rw [← h1, ← h2, ← h3, fullDocumentText]
  exact expert_tiers_concat _
